import Mathlib

/-!
# Verification of `promo_checker.py`

A shallow embedding of the Discord promo-code checker: the code extractor
(`extract_gift_code`), the lookup routine (`check_promo_code`) with its
retry/backoff loop over an abstract transport script, the batch runner
(`bulk_check_from_file`, embedded as `bulk_check_lines` over the lines
of the input file), and the delay-prompt parsing from `main`.

Modelling conventions:
* The HTTP transport is a script `Nat → Attempt`: for each loop iteration
  (0-based attempt index) it yields either a raised
  `requests.exceptions.RequestException` (connection error / timeout) or an
  `HttpResponse`.
* `response.json()` is modelled by `HttpResponse.body : Option Json`:
  `none` means the body does not parse as JSON, in which case `.json()`
  raises `requests.exceptions.JSONDecodeError`, which (requests >= 2.27) is
  a subclass of `RequestException` and is therefore caught by the
  `except` clause of the loop; `Json.nonObj` is a JSON value that is not an
  object, on which `data.get(...)` raises an uncaught `AttributeError`.
* Object bodies come in two forms: `Json.obj`, the well-typed fragment
  whose consulted fields are absent or of their interface types, and
  `Json.objX`, an arbitrary dict of general `JVal` values.  On the latter
  the 200 branch runs the modelled Python semantics: a present null or
  non-dict `subscription_plan` makes `plan_info.get` raise an uncaught
  `AttributeError`, and uses/max_uses values on which the rich comparisons
  of lines 53 and 61 are undefined raise an uncaught `TypeError`.
* The `Retry-After` header is modelled post-`int()`: absent, an integer, or
  a string `int()` rejects (raising an uncaught `ValueError`).
* `time.sleep` of a negative duration raises an uncaught `ValueError`.
* Python `None` values and absent dict keys are both modelled as
  `Option.none`; machine floats entered at the delay prompt are modelled
  as rationals, `none` standing for empty or non-numeric input.
-/

/-! ## Python string helpers -/

/-- Characters removed by the Python method `str.strip()` (ASCII whitespace). -/
def pyWs (c : Char) : Bool :=
  c = ' ' || c = '\t' || c = '\n' || c = '\r' || c = '\x0b' || c = '\x0c'

/-- The character class `[A-Za-z0-9]` of the gift-code patterns. -/
def pyAlnum (c : Char) : Bool :=
  ('A' ≤ c && c ≤ 'Z') || ('a' ≤ c && c ≤ 'z') || ('0' ≤ c && c ≤ '9')

/-- Stripping per `str.strip()` on a character list. -/
def stripChars (cs : List Char) : List Char :=
  ((cs.dropWhile pyWs).reverse.dropWhile pyWs).reverse

/-- Stripping per the source call `text.strip()`. -/
def pyStrip (s : String) : String := ⟨stripChars s.data⟩

/-- The test `line.startswith('#')` of the batch collection loop. -/
def pyStartsWithHash (s : String) : Bool :=
  match s.data with
  | [] => false
  | c :: _ => c = '#'

/-! ## The regex model for `extract_gift_code`

Each of the four patterns is a literal followed by a capture group
`([A-Za-z0-9]{16,25})` at the end of the pattern, so `re.search` matches at
the leftmost position where the literal occurs followed by at least 16
alphanumeric characters, and the greedy group captures the first
`min(run, 25)` characters of the alphanumeric run. -/

/-- Attempt to match `lit` followed by `([A-Za-z0-9]{16,25})` at the start
of `cs`, returning the captured group. -/
def matchAt (lit cs : List Char) : Option (List Char) :=
  if lit.isPrefixOf cs then
    let run := (cs.drop lit.length).takeWhile pyAlnum
    if 16 ≤ run.length then some (run.take 25) else none
  else none

/-- Search per `re.search` for `lit` followed by the capture group: leftmost match. -/
def searchPat (lit : List Char) : List Char → Option (List Char)
  | [] => matchAt lit []
  | c :: cs =>
    match matchAt lit (c :: cs) with
    | some g => some g
    | none => searchPat lit cs

/-- The four pattern literals, in source order. -/
def giftPatterns : List (List Char) :=
  ["discord.gift/".data, "discord.com/gifts/".data,
   "discordapp.com/gifts/".data, "promos.discord.gg/".data]

/-- The function `extract_gift_code` from `promo_checker.py`: try the four URL patterns
in order; if none matches, accept the stripped input when it is a
whole-string alphanumeric token of length 16 to 25. -/
def extract_gift_code (text : String) : Option String :=
  match giftPatterns.findSome? (fun lit => (searchPat lit text.data).map (⟨·⟩)) with
  | some g => some g
  | none =>
    let t := pyStrip text
    if 16 ≤ t.length ∧ t.length ≤ 25 ∧ t.data.all pyAlnum then some t else none

/-! ## The transport model for `check_promo_code` -/

/-- Value of the Retry-After header as seen by `int(...)`: an integer, or a
string that `int()` rejects. -/
inductive RetryAfterVal where
  | intVal (n : Int)
  | malformed
deriving DecidableEq, Repr

/-- Python exceptions that escape `check_promo_code` uncaught. -/
inductive PyExc where
  | attributeError
  | valueError
  | typeError
deriving DecidableEq, Repr

/-- The `subscription_plan` object of a 200 body in the well-typed
fragment. -/
structure PlanObj where
  name : Option String
deriving DecidableEq, Repr

/-- The dict fields of a JSON-object response body that the checker reads,
in the well-typed fragment (each field absent or of its interface type);
an absent field is `none`. -/
structure JsonObj where
  redeemed : Option Bool := none
  uses : Option Int := none
  max_uses : Option Int := none
  subscription_plan : Option PlanObj := none
  message : Option String := none
deriving DecidableEq, Repr

/-! ### General JSON values

Bodies can also carry fields that are present but null or of a type other
than the interface expects; the source then runs Python operations on them
(truthiness, rich comparison, `str()`), some of which raise.  `JVal` is a
general JSON value (numbers restricted to integers; floating-point JSON
numbers are out of scope), and the helpers below model the Python
semantics the 200 branch uses on such values.  In `pyQuote` the quote
selection of `repr` for strings is modelled; escaping of quotes, control
characters and backslashes inside strings is not. -/

/-- A JSON value, as produced by `json.loads` (integers only for
numbers). -/
inductive JVal where
  | null
  | jbool (b : Bool)
  | jint (n : Int)
  | jstr (s : String)
  | jarr (l : List JVal)
  | jobj (d : List (String × JVal))
deriving Repr

/-- Key lookup in a JSON object (keys unique, as after `json.loads`). -/
def pyLookup : List (String × JVal) → String → Option JVal
  | [], _ => none
  | p :: ps, k => if p.1 = k then some p.2 else pyLookup ps k

/-- The call `d.get(k, dflt)` on a dict of JSON values. -/
def jGet (d : List (String × JVal)) (k : String) (dflt : JVal) : JVal :=
  (pyLookup d k).getD dflt

mutual
/-- Python `==` on JSON values: numbers (bools included) compare by value,
strings and lists structurally, dicts by key set with equal values,
everything else is unequal without raising. -/
def pyEq : JVal → JVal → Bool
  | .null, .null => true
  | .jbool a, .jbool b => a == b
  | .jbool a, .jint n => (if a then (1 : Int) else 0) == n
  | .jint n, .jbool b => n == (if b then (1 : Int) else 0)
  | .jint a, .jint b => a == b
  | .jstr a, .jstr b => a == b
  | .jarr a, .jarr b => pyEqList a b
  | .jobj a, .jobj b => a.length == b.length && pyEqObj a b
  | _, _ => false
/-- Elementwise `==` of two lists. -/
def pyEqList : List JVal → List JVal → Bool
  | [], [] => true
  | a :: as, b :: bs => pyEq a b && pyEqList as bs
  | _, _ => false
/-- Every key of the first dict has an equal value in the second. -/
def pyEqObj : List (String × JVal) → List (String × JVal) → Bool
  | [], _ => true
  | (k, v) :: rest, b => pyMemEq k v b && pyEqObj rest b
/-- The dict holds key `k` with a value equal to `v`. -/
def pyMemEq (k : String) (v : JVal) : List (String × JVal) → Bool
  | [] => false
  | (k2, w) :: ws => if k2 = k then pyEq v w else pyMemEq k v ws
end

/-- The numeric value of a JSON value, when Python treats it as a number
(bool is a subclass of int). -/
def pyNumOf : JVal → Option Int
  | .jbool b => some (if b then 1 else 0)
  | .jint n => some n
  | _ => none

mutual
/-- Python `a >= b` on JSON values: defined for number pairs, string
pairs and list pairs; every other combination raises TypeError. -/
def pyGE (a b : JVal) : Except PyExc Bool :=
  match pyNumOf a, pyNumOf b with
  | some x, some y => .ok (decide (y ≤ x))
  | _, _ =>
    match a, b with
    | .jstr x, .jstr y => .ok (decide (y ≤ x))
    | .jarr x, .jarr y => pyGEList x y
    | _, _ => .error .typeError
/-- Lexicographic `>=` on lists: walk while elements are `==`, compare the
first unequal pair (which may raise), tiebreak on length. -/
def pyGEList : List JVal → List JVal → Except PyExc Bool
  | [], [] => .ok true
  | [], _ :: _ => .ok false
  | _ :: _, [] => .ok true
  | a :: as, b :: bs => if pyEq a b then pyGEList as bs else pyGE a b
end

mutual
/-- Python `a > b` on JSON values, with the same domain as `pyGE`. -/
def pyGT (a b : JVal) : Except PyExc Bool :=
  match pyNumOf a, pyNumOf b with
  | some x, some y => .ok (decide (y < x))
  | _, _ =>
    match a, b with
    | .jstr x, .jstr y => .ok (decide (y < x))
    | .jarr x, .jarr y => pyGTList x y
    | _, _ => .error .typeError
/-- Lexicographic `>` on lists. -/
def pyGTList : List JVal → List JVal → Except PyExc Bool
  | [], [] => .ok false
  | [], _ :: _ => .ok false
  | _ :: _, [] => .ok true
  | a :: as, b :: bs => if pyEq a b then pyGTList as bs else pyGT a b
end

/-- Python truthiness of a JSON value. -/
def pyTruthy : JVal → Bool
  | .null => false
  | .jbool b => b
  | .jint n => decide (n ≠ 0)
  | .jstr s => decide (s ≠ "")
  | .jarr l => !l.isEmpty
  | .jobj l => !l.isEmpty

/-- Quoting of a string by `repr`: double quotes when the string contains
a single quote and no double quote, else single quotes (inner escaping not
modelled). -/
def pyQuote (s : String) : String :=
  if s.data.contains (Char.ofNat 39) && !(s.data.contains (Char.ofNat 34)) then
    "\"" ++ s ++ "\""
  else
    String.mk (Char.ofNat 39 :: (s.data ++ [Char.ofNat 39]))

mutual
/-- Python `repr` of a JSON value. -/
def pyRepr : JVal → String
  | .null => "None"
  | .jbool b => if b then "True" else "False"
  | .jint n => toString n
  | .jstr s => pyQuote s
  | .jarr l => "[" ++ pyReprList l ++ "]"
  | .jobj l => "\x7b" ++ pyReprObj l ++ "\x7d"
/-- Comma-separated `repr` of list elements. -/
def pyReprList : List JVal → String
  | [] => ""
  | [v] => pyRepr v
  | v :: rest => pyRepr v ++ ", " ++ pyReprList rest
/-- Comma-separated `repr` of dict entries. -/
def pyReprObj : List (String × JVal) → String
  | [] => ""
  | [(k, v)] => pyQuote k ++ ": " ++ pyRepr v
  | (k, v) :: rest => pyQuote k ++ ": " ++ pyRepr v ++ ", " ++ pyReprObj rest
end

/-- Python `str` of a JSON value, as interpolated by an f-string. -/
def pyStr : JVal → String
  | .jstr s => s
  | v => pyRepr v

/-- A parsed JSON body.  `obj o` is an object body in the well-typed
fragment (every consulted field absent or of its interface type), the
case the classification and raw-data claims speak about; `objX d` is an
arbitrary object body with explicit field values (the two overlap on
well-typed bodies, where the checker computes the same outcome by
construction); `nonObj` is a JSON value that is not an object, on which
`data.get(...)` raises `AttributeError`. -/
inductive Json where
  | obj (o : JsonObj)
  | objX (d : List (String × JVal))
  | nonObj
deriving Repr

/-- One HTTP response: status code, `Retry-After` header, whether
`response.text` is nonempty, and the result of `response.json()`
(`none` when the body does not parse, making `.json()` raise). -/
structure HttpResponse where
  status : Nat
  retryAfter : Option RetryAfterVal := none
  textNonempty : Bool := true
  body : Option Json := none
deriving Repr

/-- Behaviour of the transport on one attempt: `requests.get` raises a
`RequestException` with message `msg`, or returns a response. -/
inductive Attempt where
  | failure (msg : String)
  | response (r : HttpResponse)

/-- Which return statement of `check_promo_code` produced the outcome. -/
inductive Origin where
  | ok200
  | notFound
  | rateLimited
  | otherStatus
  | netError
  | fallback
deriving DecidableEq, Repr

/-- The result dict of `check_promo_code`. Fields `uses` and `max_uses`
are `none` on the outcomes that do not carry them and hold the raw dict
values on 200 outcomes; `plan` holds the raw plan-name value (a string on
well-typed bodies); `raw_data` is `none` when the raw body is not
retained. -/
structure LookupOutcome where
  code : String
  valid : Bool
  status : String
  emoji : String
  plan : JVal
  message : String
  uses : Option JVal := none
  max_uses : Option JVal := none
  raw_data : Option Json := none
deriving Repr

/-- A completed run: number of `requests.get` calls, the `time.sleep`
durations in order, the producing return statement, and the outcome. -/
structure CheckOk where
  requests : Nat
  sleeps : List Int
  origin : Origin
  outcome : LookupOutcome
deriving Repr

/-! ## Outcome construction (the return dicts of `check_promo_code`) -/

/-- Message text of the JSONDecodeError raised by `response.json()` on an
unparseable body, as produced by `str(e)`. -/
def jsonDecodeErrMsg : String := "Expecting value: line 1 column 1 (char 0)"

/-- The 200-response outcome (lines 39-74 of the source). -/
def outcome200 (code : String) (debug : Bool) (o : JsonObj) : LookupOutcome :=
  let is_redeemed := o.redeemed.getD false
  let uses := o.uses.getD 0
  let max_uses := o.max_uses.getD 1
  let plan_name := ((o.subscription_plan.getD { name := none }).name).getD "Unknown"
  let claimed := is_redeemed = true ∨ max_uses ≤ uses
  let status := if claimed then "CLAIMED" else "CLAIMABLE"
  let emoji := if claimed then "❌" else "✅"
  let extra :=
    if 0 < uses ∨ 1 < max_uses then
      " (Uses: " ++ toString uses ++ "/" ++ toString max_uses ++ ")"
    else ""
  { code := code, valid := true, status := status, emoji := emoji,
    plan := .jstr plan_name,
    message := emoji ++ " Code is " ++ status ++ " - " ++ plan_name ++ extra,
    uses := some (.jint uses), max_uses := some (.jint max_uses),
    raw_data := if debug then some (Json.obj o) else none }

/-- The 200-response computation (lines 39-74 of the source) on an
arbitrary JSON-object body: read the five fields with their defaults,
check the plan value is a dict (else `plan_info.get` raises
AttributeError), classify with short-circuiting
`is_redeemed or uses >= max_uses`, decide the uses suffix with
short-circuiting `uses > 0 or max_uses > 1` (rich comparisons may raise
TypeError), and build the result dict. -/
def eval200X (code : String) (debug : Bool) (d : List (String × JVal)) :
    Except PyExc LookupOutcome :=
  let is_redeemed := jGet d "redeemed" (.jbool false)
  let uses := jGet d "uses" (.jint 0)
  let max_uses := jGet d "max_uses" (.jint 1)
  match jGet d "subscription_plan" (.jobj []) with
  | .jobj pl =>
    let plan_name := jGet pl "name" (.jstr "Unknown")
    match (if pyTruthy is_redeemed then .ok true else pyGE uses max_uses :
           Except PyExc Bool) with
    | .error e => .error e
    | .ok claimed =>
      let status := if claimed then "CLAIMED" else "CLAIMABLE"
      let emoji := if claimed then "❌" else "✅"
      match (match pyGT uses (.jint 0) with
             | .error e => .error e
             | .ok true => .ok true
             | .ok false => pyGT max_uses (.jint 1) : Except PyExc Bool) with
      | .error e => .error e
      | .ok extraB =>
        let extra :=
          if extraB then " (Uses: " ++ pyStr uses ++ "/" ++ pyStr max_uses ++ ")"
          else ""
        .ok { code := code, valid := true, status := status, emoji := emoji,
              plan := plan_name,
              message := emoji ++ " Code is " ++ status ++ " - " ++
                pyStr plan_name ++ extra,
              uses := some uses, max_uses := some max_uses,
              raw_data := if debug then some (Json.objX d) else none }
  | _ => .error .attributeError

/-- The 404 outcome. -/
def invalidOutcome (code : String) : LookupOutcome :=
  { code := code, valid := false, status := "INVALID", emoji := "⚠️",
    plan := .jstr "N/A", message := "⚠️ Code is INVALID (Unknown Gift Code)" }

/-- The exhausted-429 outcome. -/
def rateLimitedOutcome (code : String) : LookupOutcome :=
  { code := code, valid := false, status := "RATE_LIMITED", emoji := "⏳",
    plan := .jstr "N/A",
    message := "⏳ Rate limited - Try again later or increase delay" }

/-- The unexpected-status outcome; `msg` is the message field of the body or
`"Unknown error"`. -/
def statusErrorOutcome (code msg : String) : LookupOutcome :=
  { code := code, valid := false, status := "ERROR", emoji := "❌",
    plan := .jstr "N/A", message := "❌ Error checking code: " ++ msg }

/-- The exhausted-transport-failure outcome; `msg` models `str(e)`. -/
def netErrorOutcome (code msg : String) : LookupOutcome :=
  { code := code, valid := false, status := "ERROR", emoji := "❌",
    plan := .jstr "N/A", message := "❌ Network error: " ++ msg }

/-- The defensive fallback outcome after the loop. -/
def maxRetriesOutcome (code : String) : LookupOutcome :=
  { code := code, valid := false, status := "ERROR", emoji := "❌",
    plan := .jstr "N/A", message := "❌ Max retries exceeded" }

/-- Models the call reading the Retry-After header with default 3 when
absent, raising ValueError when the header does not parse as an integer. -/
def parseRetryAfter : Option RetryAfterVal → Except PyExc Int
  | none => .ok 3
  | some (.intVal n) => .ok n
  | some .malformed => .error .valueError

/-- Prepend a sleep duration to the trace of a completed run. -/
def addSleep (w : Int) : Except PyExc CheckOk → Except PyExc CheckOk
  | .ok r => .ok { r with sleeps := w :: r.sleeps }
  | .error e => .error e

/-! ## The retry loop

`checkFrom code debug max_retries script attempt fuel` runs the
`for attempt in range(max_retries)` loop from iteration `attempt` with
`fuel` iterations remaining (`check_promo_code` enters with `attempt = 0`,
`fuel = max_retries`).  Request counts in the returned trace are absolute
(the index of the last executed iteration plus one). -/
def checkFrom (code : String) (debug : Bool) (max_retries : Nat)
    (script : Nat → Attempt) : Nat → Nat → Except PyExc CheckOk
  | attempt, 0 => .ok ⟨attempt, [], .fallback, maxRetriesOutcome code⟩
  | attempt, fuel + 1 =>
    match script attempt with
    | .failure msg =>
      if attempt + 1 < max_retries then
        addSleep (min (2 * 2 ^ attempt) 10)
          (checkFrom code debug max_retries script (attempt + 1) fuel)
      else
        .ok ⟨attempt + 1, [], .netError, netErrorOutcome code msg⟩
    | .response r =>
      if r.status = 200 then
        match r.body with
        | some (.obj o) => .ok ⟨attempt + 1, [], .ok200, outcome200 code debug o⟩
        | some (.objX d) =>
          match eval200X code debug d with
          | .error e => .error e
          | .ok out => .ok ⟨attempt + 1, [], .ok200, out⟩
        | some .nonObj => .error .attributeError
        | none =>
          -- `response.json()` raised `JSONDecodeError`, caught by the
          -- `except requests.exceptions.RequestException` clause
          if attempt + 1 < max_retries then
            addSleep (min (2 * 2 ^ attempt) 10)
              (checkFrom code debug max_retries script (attempt + 1) fuel)
          else
            .ok ⟨attempt + 1, [], .netError, netErrorOutcome code jsonDecodeErrMsg⟩
      else if r.status = 404 then
        .ok ⟨attempt + 1, [], .notFound, invalidOutcome code⟩
      else if r.status = 429 then
        if attempt + 1 < max_retries then
          match parseRetryAfter r.retryAfter with
          | .error e => .error e
          | .ok retry_after =>
            let wait := min (retry_after * 2 ^ attempt) 30
            if wait < 0 then .error .valueError
            else
              addSleep wait
                (checkFrom code debug max_retries script (attempt + 1) fuel)
        else
          .ok ⟨attempt + 1, [], .rateLimited, rateLimitedOutcome code⟩
      else
        match (if r.textNonempty then r.body else some (Json.obj {})) with
        | some (.obj o) =>
          .ok ⟨attempt + 1, [], .otherStatus,
               statusErrorOutcome code (o.message.getD "Unknown error")⟩
        | some (.objX d) =>
          .ok ⟨attempt + 1, [], .otherStatus,
               statusErrorOutcome code (pyStr (jGet d "message" (.jstr "Unknown error")))⟩
        | some .nonObj => .error .attributeError
        | none =>
          if attempt + 1 < max_retries then
            addSleep (min (2 * 2 ^ attempt) 10)
              (checkFrom code debug max_retries script (attempt + 1) fuel)
          else
            .ok ⟨attempt + 1, [], .netError, netErrorOutcome code jsonDecodeErrMsg⟩

/-- The function `check_promo_code(code, debug, max_retries)` run against a
transport script. -/
def check_promo_code (code : String) (debug : Bool) (max_retries : Nat)
    (script : Nat → Attempt) : Except PyExc CheckOk :=
  checkFrom code debug max_retries script 0 max_retries

/-! ## The batch runner `bulk_check_from_file`

Embedded over the list of lines of the input file, with the per-code
lookup abstracted as `checkFn : String → LookupOutcome` (the source calls
`check_promo_code(code)` for each code). -/

/-- The per-line filtering of the collection loop: strip, skip blank and
`#`-comment lines, then extract. -/
def lineToCode (line : String) : Option String :=
  let s := pyStrip line
  if s = "" ∨ pyStartsWithHash s = true then none else extract_gift_code s

/-- The list `codes_to_check` built from the lines of the input file. -/
def codes_to_check (lines : List String) : List String :=
  lines.filterMap lineToCode

/-- The five category lists of the `results` dict. -/
structure BatchCats where
  claimable : List LookupOutcome := []
  claimed : List LookupOutcome := []
  invalid : List LookupOutcome := []
  rate_limited : List LookupOutcome := []
  error : List LookupOutcome := []
deriving Repr

/-- Append one result to the category selected by its `status`. -/
def classifyResult (acc : BatchCats) (res : LookupOutcome) : BatchCats :=
  if res.status = "CLAIMABLE" then { acc with claimable := acc.claimable ++ [res] }
  else if res.status = "CLAIMED" then { acc with claimed := acc.claimed ++ [res] }
  else if res.status = "INVALID" then { acc with invalid := acc.invalid ++ [res] }
  else if res.status = "RATE_LIMITED" then
    { acc with rate_limited := acc.rate_limited ++ [res] }
  else { acc with error := acc.error ++ [res] }

/-- Total number of results across the five categories. -/
def catsSize (c : BatchCats) : Nat :=
  c.claimable.length + c.claimed.length + c.invalid.length +
    c.rate_limited.length + c.error.length

/-- Observable effects of one batch run: lookups performed in order,
aggregated categories, and whether a results file was written. -/
structure BulkRun where
  calls : List String
  cats : BatchCats
  wrote_file : Bool
deriving Repr

/-- One fold step of the check loop: record the lookup and classify it. -/
def bulkStep (checkFn : String → LookupOutcome)
    (st : List String × BatchCats) (c : String) : List String × BatchCats :=
  (st.1 ++ [c], classifyResult st.2 (checkFn c))

/-- The function `bulk_check_from_file` over the lines of the input file:
when no codes
survive filtering it returns before any lookup and writes nothing;
otherwise it checks each code in order and always saves a results file. -/
def bulk_check_lines (lines : List String)
    (checkFn : String → LookupOutcome) : BulkRun :=
  let codes := codes_to_check lines
  if codes.isEmpty then { calls := [], cats := {}, wrote_file := false }
  else
    let final := codes.foldl (bulkStep checkFn) ([], {})
    { calls := final.1, cats := final.2, wrote_file := true }

/-! ## The delay prompt of `main` (bulk mode)

The entered text is abstracted post-`float()`: `none` for an empty line or
one that `float()` rejects, `some d` for a parsed value. -/

/-- Lines 344-357 of the source: default 2.5, negative values and invalid
input fall back to the default, values above 60 are capped at 60. -/
def parse_delay_input : Option ℚ → ℚ
  | none => 2.5
  | some d => if d < 0 then 2.5 else if d > 60 then (60 : ℚ) else d

/-! ## Auxiliary definitions for the statements -/

/-- An object body the 200 branch consumes without raising: its uses and
max_uses fields, where present, are integers (so the rich comparisons on
lines 53 and 61 cannot raise TypeError) and its subscription_plan, where
present, is an object (so `plan_info.get` cannot raise AttributeError).
The redeemed and message values are unconstrained: truthiness and `str()`
never raise. -/
def safeFields (d : List (String × JVal)) : Prop :=
  (∀ v, pyLookup d "uses" = some v → ∃ n, v = JVal.jint n) ∧
  (∀ v, pyLookup d "max_uses" = some v → ∃ n, v = JVal.jint n) ∧
  (∀ v, pyLookup d "subscription_plan" = some v → ∃ pl, v = JVal.jobj pl)

/-- A response none of whose consulted fields trigger an uncaught
exception: a 200 body must not be non-object JSON when parsed and, when a
general object body, must have safe fields; the body of an unexpected
status with nonempty text must not be non-object JSON (object bodies are
safe there, only `message` is read and stringified); and the Retry-After
header of a 429 must be absent or a nonnegative integer. -/
def benignResponse (r : HttpResponse) : Prop :=
  (r.status = 200 → r.body ≠ some Json.nonObj ∧
    ∀ d, r.body = some (Json.objX d) → safeFields d) ∧
  (r.status ≠ 200 → r.status ≠ 404 → r.status ≠ 429 → r.textNonempty = true →
    r.body ≠ some Json.nonObj) ∧
  (r.status = 429 →
    match r.retryAfter with
    | some .malformed => False
    | some (.intVal n) => 0 ≤ n
    | none => True)

/-- A transport behaviour that cannot trigger an uncaught exception. -/
def benign : Attempt → Prop
  | .failure _ => True
  | .response r => benignResponse r

/-- The backoff sleeps of `k` consecutive transport failures starting at
attempt index `a`. -/
def netSleeps : Nat → Nat → List Int
  | _, 0 => []
  | a, k + 1 => min (2 * 2 ^ a) 10 :: netSleeps (a + 1) k

/-! ## Helper lemmas about the regex model -/

theorem isPrefixOf_ex : ∀ (l t : List Char), l.isPrefixOf t = true → ∃ u, t = l ++ u := by
  intro l
  induction l with
  | nil => exact fun t _ => ⟨t, rfl⟩
  | cons a as ih =>
    intro t h
    cases t with
    | nil => simp [List.isPrefixOf] at h
    | cons b bs =>
      simp only [List.isPrefixOf, Bool.and_eq_true, beq_iff_eq] at h
      obtain ⟨rfl, h2⟩ := h
      obtain ⟨u, rfl⟩ := ih bs h2
      exact ⟨u, rfl⟩

theorem isPrefixOf_append_self : ∀ (l t : List Char), l.isPrefixOf (l ++ t) = true := by
  intro l t
  induction l with
  | nil => simp [List.isPrefixOf]
  | cons a as ih => simp [List.isPrefixOf, ih]

theorem matchAt_none_of_alnum (lit : List Char) (c0 : Char) (hc0 : c0 ∈ lit)
    (hc0a : pyAlnum c0 = false) (t : List Char) (ht : ∀ c ∈ t, pyAlnum c = true) :
    matchAt lit t = none := by
  unfold matchAt
  rw [if_neg]
  intro hpre
  obtain ⟨u, rfl⟩ := isPrefixOf_ex lit t hpre
  have : pyAlnum c0 = true := ht c0 (List.mem_append_left u hc0)
  rw [this] at hc0a
  exact Bool.noConfusion hc0a

theorem searchPat_none_of_alnum (lit : List Char) (c0 : Char) (hc0 : c0 ∈ lit)
    (hc0a : pyAlnum c0 = false) : ∀ (t : List Char), (∀ c ∈ t, pyAlnum c = true) →
    searchPat lit t = none := by
  intro t
  induction t with
  | nil =>
    intro _
    simp [searchPat, matchAt_none_of_alnum lit c0 hc0 hc0a [] (by simp)]
  | cons c cs ih =>
    intro ht
    have h1 : matchAt lit (c :: cs) = none :=
      matchAt_none_of_alnum lit c0 hc0 hc0a (c :: cs) ht
    have h2 : searchPat lit cs = none := ih (fun x hx => ht x (List.mem_cons_of_mem c hx))
    simp [searchPat, h1, h2]

theorem matchAt_self_append (lit t : List Char) (ht : ∀ c ∈ t, pyAlnum c = true)
    (h16 : 16 ≤ t.length) (h25 : t.length ≤ 25) : matchAt lit (lit ++ t) = some t := by
  unfold matchAt
  rw [if_pos (isPrefixOf_append_self lit t), List.drop_left,
      List.takeWhile_eq_self_iff.mpr ht, if_pos h16, List.take_of_length_le h25]

theorem searchPat_eq_of_matchAt {lit cs g : List Char} (h : matchAt lit cs = some g) :
    searchPat lit cs = some g := by
  cases cs with
  | nil => simpa [searchPat] using h
  | cons c cs => simp [searchPat, h]

theorem data_mk (l : List Char) : (String.mk l).data = l := rfl

theorem giftPatterns_eq : giftPatterns =
    "discord.gift/".data :: "discord.com/gifts/".data ::
    "discordapp.com/gifts/".data :: "promos.discord.gg/".data :: [] := rfl

theorem extract_step1 {s : String} {g : List Char}
    (h : searchPat "discord.gift/".data s.data = some g) :
    extract_gift_code s = some ⟨g⟩ := by
  unfold extract_gift_code
  rw [giftPatterns_eq]
  simp only [List.findSome?_cons]
  rw [h]
  rfl

theorem extract_step2 {s : String} {g : List Char}
    (h1 : searchPat "discord.gift/".data s.data = none)
    (h2 : searchPat "discord.com/gifts/".data s.data = some g) :
    extract_gift_code s = some ⟨g⟩ := by
  unfold extract_gift_code
  rw [giftPatterns_eq]
  simp only [List.findSome?_cons]
  rw [h1, h2]
  rfl

theorem extract_step3 {s : String} {g : List Char}
    (h1 : searchPat "discord.gift/".data s.data = none)
    (h2 : searchPat "discord.com/gifts/".data s.data = none)
    (h3 : searchPat "discordapp.com/gifts/".data s.data = some g) :
    extract_gift_code s = some ⟨g⟩ := by
  unfold extract_gift_code
  rw [giftPatterns_eq]
  simp only [List.findSome?_cons]
  rw [h1, h2, h3]
  rfl

theorem extract_step4 {s : String} {g : List Char}
    (h1 : searchPat "discord.gift/".data s.data = none)
    (h2 : searchPat "discord.com/gifts/".data s.data = none)
    (h3 : searchPat "discordapp.com/gifts/".data s.data = none)
    (h4 : searchPat "promos.discord.gg/".data s.data = some g) :
    extract_gift_code s = some ⟨g⟩ := by
  unfold extract_gift_code
  rw [giftPatterns_eq]
  simp only [List.findSome?_cons]
  rw [h1, h2, h3, h4]
  rfl

theorem extract_no_url {s : String}
    (h1 : searchPat "discord.gift/".data s.data = none)
    (h2 : searchPat "discord.com/gifts/".data s.data = none)
    (h3 : searchPat "discordapp.com/gifts/".data s.data = none)
    (h4 : searchPat "promos.discord.gg/".data s.data = none) :
    extract_gift_code s =
      (if 16 ≤ (pyStrip s).length ∧ (pyStrip s).length ≤ 25 ∧
          (pyStrip s).data.all pyAlnum then some (pyStrip s) else none) := by
  unfold extract_gift_code
  rw [giftPatterns_eq]
  simp only [List.findSome?_cons]
  rw [h1, h2, h3, h4]
  rfl

theorem extract_url_gift (t : List Char) (ht : ∀ c ∈ t, pyAlnum c = true)
    (h16 : 16 ≤ t.length) (h25 : t.length ≤ 25) :
    extract_gift_code ⟨"https://discord.gift/".data ++ t⟩ = some ⟨t⟩ := by
  have h1 : searchPat "discord.gift/".data ("https://discord.gift/".data ++ t) = some t := by
    have e : searchPat "discord.gift/".data ("https://discord.gift/".data ++ t)
        = searchPat "discord.gift/".data ("discord.gift/".data ++ t) := rfl
    rw [e]
    exact searchPat_eq_of_matchAt (matchAt_self_append _ t ht h16 h25)
  exact extract_step1 h1

theorem extract_url_com (t : List Char) (ht : ∀ c ∈ t, pyAlnum c = true)
    (h16 : 16 ≤ t.length) (h25 : t.length ≤ 25) :
    extract_gift_code ⟨"https://discord.com/gifts/".data ++ t⟩ = some ⟨t⟩ := by
  have h1 : searchPat "discord.gift/".data ("https://discord.com/gifts/".data ++ t) = none := by
    have e : searchPat "discord.gift/".data ("https://discord.com/gifts/".data ++ t)
        = searchPat "discord.gift/".data t := rfl
    rw [e]
    exact searchPat_none_of_alnum _ '.' (by decide) (by decide) t ht
  have h2 : searchPat "discord.com/gifts/".data ("https://discord.com/gifts/".data ++ t) = some t := by
    have e : searchPat "discord.com/gifts/".data ("https://discord.com/gifts/".data ++ t)
        = searchPat "discord.com/gifts/".data ("discord.com/gifts/".data ++ t) := rfl
    rw [e]
    exact searchPat_eq_of_matchAt (matchAt_self_append _ t ht h16 h25)
  exact extract_step2 h1 h2

theorem extract_url_app (t : List Char) (ht : ∀ c ∈ t, pyAlnum c = true)
    (h16 : 16 ≤ t.length) (h25 : t.length ≤ 25) :
    extract_gift_code ⟨"https://discordapp.com/gifts/".data ++ t⟩ = some ⟨t⟩ := by
  have h1 : searchPat "discord.gift/".data ("https://discordapp.com/gifts/".data ++ t) = none := by
    have e : searchPat "discord.gift/".data ("https://discordapp.com/gifts/".data ++ t)
        = searchPat "discord.gift/".data t := rfl
    rw [e]
    exact searchPat_none_of_alnum _ '.' (by decide) (by decide) t ht
  have h2 : searchPat "discord.com/gifts/".data ("https://discordapp.com/gifts/".data ++ t) = none := by
    have e : searchPat "discord.com/gifts/".data ("https://discordapp.com/gifts/".data ++ t)
        = searchPat "discord.com/gifts/".data t := rfl
    rw [e]
    exact searchPat_none_of_alnum _ '.' (by decide) (by decide) t ht
  have h3 : searchPat "discordapp.com/gifts/".data ("https://discordapp.com/gifts/".data ++ t) = some t := by
    have e : searchPat "discordapp.com/gifts/".data ("https://discordapp.com/gifts/".data ++ t)
        = searchPat "discordapp.com/gifts/".data ("discordapp.com/gifts/".data ++ t) := rfl
    rw [e]
    exact searchPat_eq_of_matchAt (matchAt_self_append _ t ht h16 h25)
  exact extract_step3 h1 h2 h3

theorem extract_url_promos (t : List Char) (ht : ∀ c ∈ t, pyAlnum c = true)
    (h16 : 16 ≤ t.length) (h25 : t.length ≤ 25) :
    extract_gift_code ⟨"https://promos.discord.gg/".data ++ t⟩ = some ⟨t⟩ := by
  have h1 : searchPat "discord.gift/".data ("https://promos.discord.gg/".data ++ t) = none := by
    have e : searchPat "discord.gift/".data ("https://promos.discord.gg/".data ++ t)
        = searchPat "discord.gift/".data t := rfl
    rw [e]
    exact searchPat_none_of_alnum _ '.' (by decide) (by decide) t ht
  have h2 : searchPat "discord.com/gifts/".data ("https://promos.discord.gg/".data ++ t) = none := by
    have e : searchPat "discord.com/gifts/".data ("https://promos.discord.gg/".data ++ t)
        = searchPat "discord.com/gifts/".data t := rfl
    rw [e]
    exact searchPat_none_of_alnum _ '.' (by decide) (by decide) t ht
  have h3 : searchPat "discordapp.com/gifts/".data ("https://promos.discord.gg/".data ++ t) = none := by
    have e : searchPat "discordapp.com/gifts/".data ("https://promos.discord.gg/".data ++ t)
        = searchPat "discordapp.com/gifts/".data t := rfl
    rw [e]
    exact searchPat_none_of_alnum _ '.' (by decide) (by decide) t ht
  have h4 : searchPat "promos.discord.gg/".data ("https://promos.discord.gg/".data ++ t) = some t := by
    have e : searchPat "promos.discord.gg/".data ("https://promos.discord.gg/".data ++ t)
        = searchPat "promos.discord.gg/".data ("promos.discord.gg/".data ++ t) := rfl
    rw [e]
    exact searchPat_eq_of_matchAt (matchAt_self_append _ t ht h16 h25)
  exact extract_step4 h1 h2 h3 h4

theorem pyWs_false_of_alnum (c : Char) (h : pyAlnum c = true) : pyWs c = false := by
  rcases Bool.eq_false_or_eq_true (pyWs c) with ht | hf
  · exfalso
    unfold pyWs at ht
    simp only [Bool.or_eq_true, decide_eq_true_eq] at ht
    rcases ht with ((((h1 | h1) | h1) | h1) | h1) | h1 <;> subst h1 <;> exact absurd h (by decide)
  · exact hf

theorem dropWhile_eq_self_of {p : Char → Bool} {l : List Char}
    (h : ∀ c ∈ l, p c = false) : l.dropWhile p = l := by
  cases l with
  | nil => rfl
  | cons a l => simp [List.dropWhile_cons, h a (List.mem_cons_self a l)]

theorem stripChars_eq_self {l : List Char} (h : ∀ c ∈ l, pyWs c = false) :
    stripChars l = l := by
  unfold stripChars
  rw [dropWhile_eq_self_of h,
      dropWhile_eq_self_of (fun c hc => h c (List.mem_reverse.mp hc)),
      List.reverse_reverse]

theorem pyStrip_eq_self (s : String) (h : ∀ c ∈ s.data, pyAlnum c = true) :
    pyStrip s = s := by
  cases s with
  | mk d =>
    show String.mk (stripChars d) = String.mk d
    rw [stripChars_eq_self (fun c hc => pyWs_false_of_alnum c (h c hc))]

theorem extract_bare_out_of_bounds (s : String)
    (hall : ∀ c ∈ s.data, pyAlnum c = true)
    (hlen : s.data.length < 16 ∨ 25 < s.data.length) :
    extract_gift_code s = none := by
  have h1 := searchPat_none_of_alnum "discord.gift/".data '.' (by decide) (by decide) s.data hall
  have h2 := searchPat_none_of_alnum "discord.com/gifts/".data '.' (by decide) (by decide) s.data hall
  have h3 := searchPat_none_of_alnum "discordapp.com/gifts/".data '.' (by decide) (by decide) s.data hall
  have h4 := searchPat_none_of_alnum "promos.discord.gg/".data '.' (by decide) (by decide) s.data hall
  rw [extract_no_url h1 h2 h3 h4, pyStrip_eq_self s hall, if_neg]
  intro hcond
  have he : s.length = s.data.length := rfl
  obtain ⟨ha, hb, -⟩ := hcond
  rw [he] at ha hb
  omega

/-! ## Claim theorems -/

/-- C6: `extract_gift_code` applies the four URL patterns in their fixed
order, returning the first captured 16-25 character alphanumeric group; if
none matches, it returns the trimmed input exactly when the trimmed input
is a whole-string alphanumeric token of length 16 to 25 inclusive, and
none otherwise; for every valid gift URL of a recognized host the embedded
token is returned unchanged, and for any alphanumeric token shorter than
16 or longer than 25 characters extraction yields none. -/
theorem spec_C6_extract_gift_code :
    (∀ (s : String) (g : List Char),
        searchPat "discord.gift/".data s.data = some g →
        extract_gift_code s = some ⟨g⟩) ∧
    (∀ s : String, (∀ lit ∈ giftPatterns, searchPat lit s.data = none) →
        extract_gift_code s =
          (if 16 ≤ (pyStrip s).length ∧ (pyStrip s).length ≤ 25 ∧
              (pyStrip s).data.all pyAlnum then some (pyStrip s) else none)) ∧
    (∀ t : List Char, (∀ c ∈ t, pyAlnum c = true) → 16 ≤ t.length → t.length ≤ 25 →
        extract_gift_code ⟨"https://discord.gift/".data ++ t⟩ = some ⟨t⟩ ∧
        extract_gift_code ⟨"https://discord.com/gifts/".data ++ t⟩ = some ⟨t⟩ ∧
        extract_gift_code ⟨"https://discordapp.com/gifts/".data ++ t⟩ = some ⟨t⟩ ∧
        extract_gift_code ⟨"https://promos.discord.gg/".data ++ t⟩ = some ⟨t⟩) ∧
    (∀ s : String, (∀ c ∈ s.data, pyAlnum c = true) →
        (s.data.length < 16 ∨ 25 < s.data.length) → extract_gift_code s = none) := by
  refine ⟨fun s g h => extract_step1 h, fun s h => ?_, fun t ht h16 h25 => ?_, extract_bare_out_of_bounds⟩
  · exact extract_no_url
      (h _ (by simp [giftPatterns_eq])) (h _ (by simp [giftPatterns_eq]))
      (h _ (by simp [giftPatterns_eq])) (h _ (by simp [giftPatterns_eq]))
  · exact ⟨extract_url_gift t ht h16 h25, extract_url_com t ht h16 h25,
      extract_url_app t ht h16 h25, extract_url_promos t ht h16 h25⟩

/-- Witness for C6: a 16-character token inside a `discord.gift` URL is
extracted unchanged, and a bare 15-character token yields none. -/
theorem spec_C6_witness :
    extract_gift_code ⟨"https://discord.gift/".data ++ "ABCDEFGHIJKLMNOP".data⟩ =
      some ⟨"ABCDEFGHIJKLMNOP".data⟩ ∧
    extract_gift_code "ABCDEFGHIJKLMNO" = none := by
  constructor
  · exact (spec_C6_extract_gift_code.2.2.1 "ABCDEFGHIJKLMNOP".data
      (by decide) (by decide) (by decide)).1
  · exact spec_C6_extract_gift_code.2.2.2 "ABCDEFGHIJKLMNO" (by decide) (by decide)

/-! ## Helper lemmas about the retry loop -/

theorem run200 (code : String) (debug : Bool) (mr : Nat) (script : Nat → Attempt)
    (r : HttpResponse) (o : JsonObj) (hm : 1 ≤ mr) (hs : script 0 = .response r)
    (h : r.status = 200) (hb : r.body = some (.obj o)) :
    check_promo_code code debug mr script =
      .ok ⟨1, [], .ok200, outcome200 code debug o⟩ := by
  obtain ⟨k, rfl⟩ : ∃ k, mr = k + 1 := ⟨mr - 1, by omega⟩
  show checkFrom code debug (k + 1) script 0 (k + 1) = _
  simp [checkFrom, hs, h, hb]

theorem run404 (code : String) (debug : Bool) (mr : Nat) (script : Nat → Attempt)
    (r : HttpResponse) (hm : 1 ≤ mr) (hs : script 0 = .response r)
    (h : r.status = 404) :
    check_promo_code code debug mr script =
      .ok ⟨1, [], .notFound, invalidOutcome code⟩ := by
  obtain ⟨k, rfl⟩ : ∃ k, mr = k + 1 := ⟨mr - 1, by omega⟩
  show checkFrom code debug (k + 1) script 0 (k + 1) = _
  simp [checkFrom, hs, h]

theorem runOther_obj (code : String) (debug : Bool) (mr : Nat) (script : Nat → Attempt)
    (r : HttpResponse) (o : JsonObj) (hm : 1 ≤ mr) (hs : script 0 = .response r)
    (h200 : r.status ≠ 200) (h404 : r.status ≠ 404) (h429 : r.status ≠ 429)
    (ht : r.textNonempty = true) (hb : r.body = some (.obj o)) :
    check_promo_code code debug mr script =
      .ok ⟨1, [], .otherStatus,
           statusErrorOutcome code (o.message.getD "Unknown error")⟩ := by
  obtain ⟨k, rfl⟩ : ∃ k, mr = k + 1 := ⟨mr - 1, by omega⟩
  show checkFrom code debug (k + 1) script 0 (k + 1) = _
  simp [checkFrom, hs, h200, h404, h429, ht, hb]

theorem runOther_empty (code : String) (debug : Bool) (mr : Nat) (script : Nat → Attempt)
    (r : HttpResponse) (hm : 1 ≤ mr) (hs : script 0 = .response r)
    (h200 : r.status ≠ 200) (h404 : r.status ≠ 404) (h429 : r.status ≠ 429)
    (ht : r.textNonempty = false) :
    check_promo_code code debug mr script =
      .ok ⟨1, [], .otherStatus, statusErrorOutcome code "Unknown error"⟩ := by
  obtain ⟨k, rfl⟩ : ∃ k, mr = k + 1 := ⟨mr - 1, by omega⟩
  show checkFrom code debug (k + 1) script 0 (k + 1) = _
  simp [checkFrom, hs, h200, h404, h429, ht]

theorem run200X (code : String) (debug : Bool) (mr : Nat) (script : Nat → Attempt)
    (r : HttpResponse) (d : List (String × JVal)) (out : LookupOutcome)
    (hm : 1 ≤ mr) (hs : script 0 = .response r) (h : r.status = 200)
    (hb : r.body = some (.objX d)) (hev : eval200X code debug d = .ok out) :
    check_promo_code code debug mr script = .ok ⟨1, [], .ok200, out⟩ := by
  obtain ⟨k, rfl⟩ : ∃ k, mr = k + 1 := ⟨mr - 1, by omega⟩
  show checkFrom code debug (k + 1) script 0 (k + 1) = _
  simp [checkFrom, hs, h, hb, hev]

theorem runOtherX (code : String) (debug : Bool) (mr : Nat) (script : Nat → Attempt)
    (r : HttpResponse) (d : List (String × JVal)) (hm : 1 ≤ mr)
    (hs : script 0 = .response r) (h200 : r.status ≠ 200) (h404 : r.status ≠ 404)
    (h429 : r.status ≠ 429) (ht : r.textNonempty = true)
    (hb : r.body = some (.objX d)) :
    check_promo_code code debug mr script =
      .ok ⟨1, [], .otherStatus,
           statusErrorOutcome code (pyStr (jGet d "message" (.jstr "Unknown error")))⟩ := by
  obtain ⟨k, rfl⟩ : ∃ k, mr = k + 1 := ⟨mr - 1, by omega⟩
  show checkFrom code debug (k + 1) script 0 (k + 1) = _
  simp [checkFrom, hs, h200, h404, h429, ht, hb]

theorem outcome200_status (code : String) (debug : Bool) (o : JsonObj) :
    (outcome200 code debug o).status =
      if (o.redeemed.getD false = true ∨ o.max_uses.getD 1 ≤ o.uses.getD 0)
      then "CLAIMED" else "CLAIMABLE" := rfl

theorem outcome200_raw (code : String) (debug : Bool) (o : JsonObj) :
    (outcome200 code debug o).raw_data =
      if debug then some (Json.obj o) else none := rfl

/-- C2: for every 200 response body, `check_promo_code` classifies the code
as CLAIMED if and only if the redeemed flag of the body is true or
uses >= max_uses (reading redeemed as false, uses as 0 and max_uses as 1
when the fields are absent), and as CLAIMABLE otherwise; in particular a
200 body with both uses and max_uses missing (so that the defaults 0 and 1
apply, redeemed reading false) yields CLAIMABLE, and redeemed = true
yields CLAIMED for all values of uses and max_uses. -/
theorem spec_C2_classification (code : String) (debug : Bool) (mr : Nat)
    (script : Nat → Attempt) (r : HttpResponse) (o : JsonObj)
    (hm : 1 ≤ mr) (hs : script 0 = .response r) (h : r.status = 200)
    (hb : r.body = some (.obj o)) :
    ∃ res, check_promo_code code debug mr script = .ok res ∧
      (res.outcome.status = "CLAIMED" ↔
        (o.redeemed.getD false = true ∨ o.max_uses.getD 1 ≤ o.uses.getD 0)) ∧
      (res.outcome.status = "CLAIMABLE" ↔
        ¬(o.redeemed.getD false = true ∨ o.max_uses.getD 1 ≤ o.uses.getD 0)) ∧
      (o.uses = none → o.max_uses = none → o.redeemed.getD false = false →
        res.outcome.status = "CLAIMABLE") ∧
      (o.redeemed = some true → res.outcome.status = "CLAIMED") := by
  refine ⟨_, run200 code debug mr script r o hm hs h hb, ?_, ?_, ?_, ?_⟩
  · rw [outcome200_status]
    by_cases hc : (o.redeemed.getD false = true ∨ o.max_uses.getD 1 ≤ o.uses.getD 0)
    · rw [if_pos hc]
      exact iff_of_true rfl hc
    · rw [if_neg hc]
      exact iff_of_false (by decide) hc
  · rw [outcome200_status]
    by_cases hc : (o.redeemed.getD false = true ∨ o.max_uses.getD 1 ≤ o.uses.getD 0)
    · rw [if_pos hc]
      exact iff_of_false (by decide) (not_not_intro hc)
    · rw [if_neg hc]
      exact iff_of_true rfl hc
  · intro hu hmx hr
    rw [outcome200_status, if_neg]
    rintro (hx | hx)
    · rw [hr] at hx
      exact Bool.noConfusion hx
    · rw [hu, hmx] at hx
      simp only [Option.getD_none] at hx
      omega
  · intro hr
    rw [outcome200_status, if_pos]
    left
    rw [hr]
    rfl

/-- Witness for C2: a 200 body with redeemed true is CLAIMED, checked at a
concrete one-response script. -/
theorem spec_C2_witness :
    ∃ res, check_promo_code "c" false 3
        (fun _ => .response { status := 200, body := some (.obj { redeemed := some true }) }) =
        .ok res ∧ res.outcome.status = "CLAIMED" := by
  obtain ⟨res, h1, -, -, -, h5⟩ :=
    spec_C2_classification "c" false 3
      (fun _ => .response { status := 200, body := some (.obj { redeemed := some true }) })
      { status := 200, body := some (.obj { redeemed := some true }) }
      { redeemed := some true } (by norm_num) rfl rfl rfl
  exact ⟨res, h1, h5 rfl⟩

/-- C8: for every 200 response (with a JSON-object body, the case that
produces an outcome), the returned outcome carries the unmodified response
body in its raw-data field when the diagnostic flag is set, and that field
is absent (None) when the diagnostic flag is not set. -/
theorem spec_C8_raw_data (code : String) (debug : Bool) (mr : Nat)
    (script : Nat → Attempt) (r : HttpResponse) (o : JsonObj)
    (hm : 1 ≤ mr) (hs : script 0 = .response r) (h : r.status = 200)
    (hb : r.body = some (.obj o)) :
    ∃ res, check_promo_code code debug mr script = .ok res ∧
      (debug = true → res.outcome.raw_data = some (Json.obj o)) ∧
      (debug = false → res.outcome.raw_data = none) := by
  refine ⟨_, run200 code debug mr script r o hm hs h hb, ?_, ?_⟩
  · intro hd
    rw [outcome200_raw, if_pos hd]
  · intro hd
    rw [outcome200_raw, if_neg]
    rw [hd]
    exact Bool.noConfusion

/-- Witness for C8: debug on retains the body, debug off drops it. -/
theorem spec_C8_witness :
    (∃ res, check_promo_code "c" true 3
        (fun _ => .response { status := 200, body := some (.obj {}) }) = .ok res ∧
        res.outcome.raw_data = some (Json.obj {})) ∧
    (∃ res, check_promo_code "c" false 3
        (fun _ => .response { status := 200, body := some (.obj {}) }) = .ok res ∧
        res.outcome.raw_data = none) := by
  constructor
  · obtain ⟨res, h1, h2, -⟩ :=
      spec_C8_raw_data "c" true 3
        (fun _ => .response { status := 200, body := some (.obj {}) })
        { status := 200, body := some (.obj {}) } {} (by norm_num) rfl rfl rfl
    exact ⟨res, h1, h2 rfl⟩
  · obtain ⟨res, h1, -, h3⟩ :=
      spec_C8_raw_data "c" false 3
        (fun _ => .response { status := 200, body := some (.obj {}) })
        { status := 200, body := some (.obj {}) } {} (by norm_num) rfl rfl rfl
    exact ⟨res, h1, h3 rfl⟩

theorem pyGE_int (x y : Int) : pyGE (.jint x) (.jint y) = .ok (decide (y ≤ x)) := by
  simp [pyGE, pyNumOf]

theorem pyGT_int (x y : Int) : pyGT (.jint x) (.jint y) = .ok (decide (y < x)) := by
  simp [pyGT, pyNumOf]

theorem eval200X_ok (code : String) (debug : Bool) (d : List (String × JVal))
    (h : safeFields d) :
    ∃ out, eval200X code debug d = .ok out ∧ out.code = code := by
  obtain ⟨hu, hm, hp⟩ := h
  have husv : ∃ n, jGet d "uses" (.jint 0) = .jint n := by
    unfold jGet
    cases hx : pyLookup d "uses" with
    | none => exact ⟨0, rfl⟩
    | some v =>
      obtain ⟨n, rfl⟩ := hu v hx
      exact ⟨n, rfl⟩
  have hmsv : ∃ n, jGet d "max_uses" (.jint 1) = .jint n := by
    unfold jGet
    cases hx : pyLookup d "max_uses" with
    | none => exact ⟨1, rfl⟩
    | some v =>
      obtain ⟨n, rfl⟩ := hm v hx
      exact ⟨n, rfl⟩
  have hplv : ∃ pl, jGet d "subscription_plan" (.jobj []) = .jobj pl := by
    unfold jGet
    cases hx : pyLookup d "subscription_plan" with
    | none => exact ⟨[], rfl⟩
    | some v =>
      obtain ⟨pl, rfl⟩ := hp v hx
      exact ⟨pl, rfl⟩
  obtain ⟨nu, hnu⟩ := husv
  obtain ⟨nm, hnm⟩ := hmsv
  obtain ⟨pl, hpl⟩ := hplv
  unfold eval200X
  rw [hnu, hnm, hpl]
  simp only [pyGE_int, pyGT_int]
  by_cases hr : pyTruthy (jGet d "redeemed" (JVal.jbool false)) = true
  · rw [if_pos hr]
    cases hgt0 : decide (0 < nu) with
    | true => exact ⟨_, rfl, rfl⟩
    | false => exact ⟨_, rfl, rfl⟩
  · rw [if_neg hr]
    cases hgt0 : decide (0 < nu) with
    | true => exact ⟨_, rfl, rfl⟩
    | false => exact ⟨_, rfl, rfl⟩

/-- C4 (amended): responses with status 200, 404, or any status other than
429 are terminal — one request, no retry, no sleep — provided the branch
can consume the body without raising: a 404 always (INVALID, the body is
never read); a 200 whose body is a JSON object with safe fields (uses and
max_uses absent or integers, subscription_plan absent or an object); an
unexpected status whose body is any JSON object (only its message field is
read and stringified, so it yields ERROR carrying the str() of the
server-supplied message when present and "Unknown error" otherwise) or
whose text is empty.  A response whose nonempty body fails to parse as
JSON is instead treated like a transport failure and retried (see the
counterexample), and a 200 object body with a null or non-object
subscription_plan or non-integer uses/max_uses raises an uncaught
exception instead of returning (see the C5 counterexample). -/
theorem spec_C4_terminal (code : String) (debug : Bool) (mr : Nat)
    (script : Nat → Attempt) (r : HttpResponse)
    (hm : 1 ≤ mr) (hs : script 0 = .response r) :
    (r.status = 404 → check_promo_code code debug mr script =
        .ok ⟨1, [], .notFound, invalidOutcome code⟩) ∧
    (∀ o, r.status = 200 → r.body = some (.obj o) →
        check_promo_code code debug mr script =
          .ok ⟨1, [], .ok200, outcome200 code debug o⟩) ∧
    (∀ d, r.status = 200 → r.body = some (.objX d) → safeFields d →
        ∃ out, check_promo_code code debug mr script =
          .ok ⟨1, [], .ok200, out⟩) ∧
    (∀ o, r.status ≠ 200 → r.status ≠ 404 → r.status ≠ 429 →
        r.textNonempty = true → r.body = some (.obj o) →
        check_promo_code code debug mr script =
          .ok ⟨1, [], .otherStatus,
               statusErrorOutcome code (o.message.getD "Unknown error")⟩) ∧
    (∀ d, r.status ≠ 200 → r.status ≠ 404 → r.status ≠ 429 →
        r.textNonempty = true → r.body = some (.objX d) →
        check_promo_code code debug mr script =
          .ok ⟨1, [], .otherStatus,
               statusErrorOutcome code
                 (pyStr (jGet d "message" (.jstr "Unknown error")))⟩) ∧
    (r.status ≠ 200 → r.status ≠ 404 → r.status ≠ 429 →
        r.textNonempty = false →
        check_promo_code code debug mr script =
          .ok ⟨1, [], .otherStatus, statusErrorOutcome code "Unknown error"⟩) :=
  ⟨fun h404 => run404 code debug mr script r hm hs h404,
   fun o h200 hb => run200 code debug mr script r o hm hs h200 hb,
   fun d h200 hb hsafe =>
     (eval200X_ok code debug d hsafe).elim fun out hout =>
       ⟨out, run200X code debug mr script r d out hm hs h200 hb hout.1⟩,
   fun o h200 h404 h429 ht hb =>
     runOther_obj code debug mr script r o hm hs h200 h404 h429 ht hb,
   fun d h200 h404 h429 ht hb =>
     runOtherX code debug mr script r d hm hs h200 h404 h429 ht hb,
   fun h200 h404 h429 ht =>
     runOther_empty code debug mr script r hm hs h200 h404 h429 ht⟩

/-- Witness for C4 (amended): a single 404 response is terminal after one
request with no sleep, and a 200 object body whose subscription_plan is an
object with a null name is terminal as well. -/
theorem spec_C4_witness :
    check_promo_code "c" false 3 (fun _ => .response { status := 404 }) =
      .ok ⟨1, [], .notFound, invalidOutcome "c"⟩ ∧
    (∃ out, check_promo_code "c" false 3
        (fun _ => .response
          { status := 200,
            body := some (.objX [("subscription_plan", .jobj [("name", JVal.null)])]) }) =
      .ok ⟨1, [], .ok200, out⟩) := by
  constructor
  · exact (spec_C4_terminal "c" false 3 (fun _ => .response { status := 404 })
      { status := 404 } (by norm_num) rfl).1 rfl
  · exact (spec_C4_terminal "c" false 3
      (fun _ => .response
        { status := 200,
          body := some (.objX [("subscription_plan", .jobj [("name", JVal.null)])]) })
      { status := 200,
        body := some (.objX [("subscription_plan", .jobj [("name", JVal.null)])]) }
      (by norm_num) rfl).2.2.1
      [("subscription_plan", .jobj [("name", JVal.null)])] rfl rfl
      ⟨fun v hv => by simp [pyLookup] at hv,
       fun v hv => by simp [pyLookup] at hv,
       fun v hv => by simp [pyLookup] at hv; exact ⟨_, hv.symm⟩⟩

/-- Counterexample to C4 as stated: a status-500 response whose nonempty
body does not parse as JSON makes `response.json()` raise a
JSONDecodeError, which the except clause treats as a transport failure:
with max_retries = 3 the checker performs 3 requests and sleeps twice
(2 s and 4 s), not one request with no sleep as the claim requires. -/
theorem spec_C4_counterexample :
    (check_promo_code "promo" false 3
        (fun _ => .response { status := 500, textNonempty := true, body := none })).map
      (fun res => (res.requests, res.sleeps)) = .ok (3, [2, 4]) := by
  rfl

theorem benign_ok (code : String) (debug : Bool) (mr : Nat) (script : Nat → Attempt)
    (hb : ∀ i, benign (script i)) :
    ∀ fuel attempt, ∃ res,
      checkFrom code debug mr script attempt fuel = .ok res ∧
      res.outcome.code = code := by
  intro fuel
  induction fuel with
  | zero => exact fun attempt => ⟨_, rfl, rfl⟩
  | succ f ih =>
    intro attempt
    have hba := hb attempt
    cases hsa : script attempt with
    | failure msg =>
      by_cases hlt : attempt + 1 < mr
      · obtain ⟨res, hres, hcode⟩ := ih (attempt + 1)
        exact ⟨{ res with sleeps := min (2 * 2 ^ attempt) 10 :: res.sleeps },
               by simp [checkFrom, hsa, hlt, hres, addSleep], hcode⟩
      · exact ⟨⟨attempt + 1, [], .netError, netErrorOutcome code msg⟩,
               by simp [checkFrom, hsa, hlt], rfl⟩
    | response r =>
      rw [hsa] at hba
      obtain ⟨hb1, hb2, hb3⟩ := hba
      by_cases h200 : r.status = 200
      · cases hbody : r.body with
        | none =>
          by_cases hlt : attempt + 1 < mr
          · obtain ⟨res, hres, hcode⟩ := ih (attempt + 1)
            exact ⟨{ res with sleeps := min (2 * 2 ^ attempt) 10 :: res.sleeps },
                   by simp [checkFrom, hsa, h200, hbody, hlt, hres, addSleep], hcode⟩
          · exact ⟨⟨attempt + 1, [], .netError, netErrorOutcome code jsonDecodeErrMsg⟩,
                   by simp [checkFrom, hsa, h200, hbody, hlt], rfl⟩
        | some j =>
          cases j with
          | obj o =>
            exact ⟨⟨attempt + 1, [], .ok200, outcome200 code debug o⟩,
                   by simp [checkFrom, hsa, h200, hbody], rfl⟩
          | objX d =>
            obtain ⟨out, hev, hcode⟩ :=
              eval200X_ok code debug d ((hb1 h200).2 d hbody)
            exact ⟨⟨attempt + 1, [], .ok200, out⟩,
                   by simp [checkFrom, hsa, h200, hbody, hev], hcode⟩
          | nonObj => exact absurd hbody (hb1 h200).1
      · by_cases h404 : r.status = 404
        · exact ⟨⟨attempt + 1, [], .notFound, invalidOutcome code⟩,
                 by simp [checkFrom, hsa, h200, h404], rfl⟩
        · by_cases h429 : r.status = 429
          · by_cases hlt : attempt + 1 < mr
            · have hra := hb3 h429
              cases hrav : r.retryAfter with
              | none =>
                obtain ⟨res, hres, hcode⟩ := ih (attempt + 1)
                have hw : ¬ (min ((3 : Int) * 2 ^ attempt) 30 < 0) :=
                  not_lt.mpr (le_min (by positivity) (by norm_num))
                exact ⟨{ res with sleeps := min ((3 : Int) * 2 ^ attempt) 30 :: res.sleeps },
                       by simp [checkFrom, hsa, h200, h404, h429, hlt, hrav,
                                parseRetryAfter, hw, hres, addSleep], hcode⟩
              | some v =>
                cases v with
                | intVal n =>
                  rw [hrav] at hra
                  simp only at hra
                  obtain ⟨res, hres, hcode⟩ := ih (attempt + 1)
                  have hw : ¬ (min (n * 2 ^ attempt) 30 < 0) :=
                    not_lt.mpr (le_min (mul_nonneg hra (by positivity)) (by norm_num))
                  exact ⟨{ res with sleeps := min (n * 2 ^ attempt) 30 :: res.sleeps },
                         by simp [checkFrom, hsa, h200, h404, h429, hlt, hrav,
                                  parseRetryAfter, hw, hres, addSleep], hcode⟩
                | malformed =>
                  rw [hrav] at hra
                  simp only at hra
            · exact ⟨⟨attempt + 1, [], .rateLimited, rateLimitedOutcome code⟩,
                     by simp [checkFrom, hsa, h200, h404, h429, hlt], rfl⟩
          · cases htx : r.textNonempty with
            | true =>
              cases hbody : r.body with
              | none =>
                by_cases hlt : attempt + 1 < mr
                · obtain ⟨res, hres, hcode⟩ := ih (attempt + 1)
                  exact ⟨{ res with sleeps := min (2 * 2 ^ attempt) 10 :: res.sleeps },
                         by simp [checkFrom, hsa, h200, h404, h429, htx, hbody,
                                  hlt, hres, addSleep], hcode⟩
                · exact ⟨⟨attempt + 1, [], .netError, netErrorOutcome code jsonDecodeErrMsg⟩,
                         by simp [checkFrom, hsa, h200, h404, h429, htx, hbody, hlt], rfl⟩
              | some j =>
                cases j with
                | obj o =>
                  exact ⟨⟨attempt + 1, [], .otherStatus,
                          statusErrorOutcome code (o.message.getD "Unknown error")⟩,
                         by simp [checkFrom, hsa, h200, h404, h429, htx, hbody], rfl⟩
                | objX d =>
                  exact ⟨⟨attempt + 1, [], .otherStatus,
                          statusErrorOutcome code
                            (pyStr (jGet d "message" (.jstr "Unknown error")))⟩,
                         by simp [checkFrom, hsa, h200, h404, h429, htx, hbody], rfl⟩
                | nonObj => exact absurd hbody (hb2 h200 h404 h429 htx)
            | false =>
              exact ⟨⟨attempt + 1, [], .otherStatus, statusErrorOutcome code "Unknown error"⟩,
                     by simp [checkFrom, hsa, h200, h404, h429, htx], rfl⟩

/-- C5 (amended): for every code, every max_retries and every sequence of
transport behaviours whose responses are benign — every JSON body consulted
parses to a JSON object whose uses and max_uses fields, where present, are
integers and whose subscription_plan, where present, is an object (on the
200 path; object bodies on the unexpected-status path are unrestricted),
and every consulted Retry-After header is absent or a nonnegative
integer — `check_promo_code` returns a well-formed LookupOutcome carrying
the queried code, and no exception escapes.  Without the benignity
condition the claim is false: see the counterexample (AttributeError on
non-object JSON and on a null subscription_plan, TypeError on a
non-integer uses). -/
theorem spec_C5_no_exception (code : String) (debug : Bool) (mr : Nat)
    (script : Nat → Attempt) (hb : ∀ i, benign (script i)) :
    ∃ res, check_promo_code code debug mr script = .ok res ∧
      res.outcome.code = code :=
  benign_ok code debug mr script hb mr 0

/-- Witness for C5 (amended): a benign 404 script yields an outcome. -/
theorem spec_C5_witness :
    ∃ res, check_promo_code "c" false 3 (fun _ => .response { status := 404 }) =
      .ok res ∧ res.outcome.code = "c" :=
  spec_C5_no_exception "c" false 3 (fun _ => .response { status := 404 })
    (fun _ => ⟨fun h => absurd h (by norm_num),
               fun _ h404 _ => absurd rfl h404,
               fun h => absurd h (by norm_num)⟩)

/-- Counterexample to C5 as stated: exceptions escape to the caller
instead of a LookupOutcome being returned.  A 200 response whose body is
JSON but not a JSON object (for example a list) makes `data.get(...)`
raise an uncaught AttributeError; a 200 object body whose
subscription_plan is null makes `plan_info.get` raise an uncaught
AttributeError; and a 200 object body whose uses field is the string "1"
makes `uses >= max_uses` raise an uncaught TypeError. -/
theorem spec_C5_counterexample :
    check_promo_code "promo" false 3
        (fun _ => .response { status := 200, body := some Json.nonObj }) =
      .error .attributeError ∧
    check_promo_code "promo" false 3
        (fun _ => .response
          { status := 200, body := some (.objX [("subscription_plan", JVal.null)]) }) =
      .error .attributeError ∧
    check_promo_code "promo" false 3
        (fun _ => .response
          { status := 200, body := some (.objX [("uses", JVal.jstr "1")]) }) =
      .error .typeError := by
  refine ⟨rfl, rfl, ?_⟩
  show checkFrom "promo" false 3
      (fun _ => .response
        { status := 200, body := some (.objX [("uses", JVal.jstr "1")]) }) 0 3 =
    .error .typeError
  conv_lhs => rw [checkFrom]
  simp [eval200X, jGet, pyLookup, pyTruthy, pyGE, pyNumOf]

theorem addSleep_ok (w : Int) (x : Except PyExc CheckOk) (res : CheckOk)
    (h : addSleep w x = .ok res) :
    ∃ res', x = .ok res' ∧ res.origin = res'.origin := by
  cases x with
  | error e => simp [addSleep] at h
  | ok r =>
    simp only [addSleep, Except.ok.injEq] at h
    exact ⟨r, rfl, by rw [← h]⟩

theorem no_fallback (code : String) (debug : Bool) (mr : Nat) (script : Nat → Attempt) :
    ∀ fuel attempt, attempt + fuel = mr → 1 ≤ fuel →
      ∀ res, checkFrom code debug mr script attempt fuel = .ok res →
        res.origin ≠ .fallback := by
  intro fuel
  induction fuel with
  | zero => intro attempt _ h1; omega
  | succ f ih =>
    intro attempt hsum _ res hres
    cases hsa : script attempt with
    | failure msg =>
      by_cases hlt : attempt + 1 < mr
      · simp [checkFrom, hsa, hlt] at hres
        obtain ⟨res', hres', horig⟩ := addSleep_ok _ _ _ hres
        rw [horig]
        exact ih (attempt + 1) (by omega) (by omega) res' hres'
      · simp [checkFrom, hsa, hlt] at hres
        subst hres
        intro hx
        exact Origin.noConfusion hx
    | response r =>
      by_cases h200 : r.status = 200
      · cases hbody : r.body with
        | none =>
          by_cases hlt : attempt + 1 < mr
          · simp [checkFrom, hsa, h200, hbody, hlt] at hres
            obtain ⟨res', hres', horig⟩ := addSleep_ok _ _ _ hres
            rw [horig]
            exact ih (attempt + 1) (by omega) (by omega) res' hres'
          · simp [checkFrom, hsa, h200, hbody, hlt] at hres
            subst hres
            intro hx
            exact Origin.noConfusion hx
        | some j =>
          cases j with
          | obj o =>
            simp [checkFrom, hsa, h200, hbody] at hres
            subst hres
            intro hx
            exact Origin.noConfusion hx
          | objX d =>
            cases hev : eval200X code debug d with
            | error e => simp [checkFrom, hsa, h200, hbody, hev] at hres
            | ok out =>
              simp [checkFrom, hsa, h200, hbody, hev] at hres
              subst hres
              intro hx
              exact Origin.noConfusion hx
          | nonObj => simp [checkFrom, hsa, h200, hbody] at hres
      · by_cases h404 : r.status = 404
        · simp [checkFrom, hsa, h200, h404] at hres
          subst hres
          intro hx
          exact Origin.noConfusion hx
        · by_cases h429 : r.status = 429
          · by_cases hlt : attempt + 1 < mr
            · cases hrav : r.retryAfter with
              | none =>
                by_cases hneg : min ((3 : Int) * 2 ^ attempt) 30 < 0
                · simp [checkFrom, hsa, h200, h404, h429, hlt, hrav,
                        parseRetryAfter, hneg] at hres
                · simp [checkFrom, hsa, h200, h404, h429, hlt, hrav,
                        parseRetryAfter, hneg] at hres
                  obtain ⟨res', hres', horig⟩ := addSleep_ok _ _ _ hres
                  rw [horig]
                  exact ih (attempt + 1) (by omega) (by omega) res' hres'
              | some v =>
                cases v with
                | intVal n =>
                  by_cases hneg : min (n * 2 ^ attempt) 30 < 0
                  · simp [checkFrom, hsa, h200, h404, h429, hlt, hrav,
                          parseRetryAfter, hneg] at hres
                  · simp [checkFrom, hsa, h200, h404, h429, hlt, hrav,
                          parseRetryAfter, hneg] at hres
                    obtain ⟨res', hres', horig⟩ := addSleep_ok _ _ _ hres
                    rw [horig]
                    exact ih (attempt + 1) (by omega) (by omega) res' hres'
                | malformed =>
                  simp [checkFrom, hsa, h200, h404, h429, hlt, hrav,
                        parseRetryAfter] at hres
            · simp [checkFrom, hsa, h200, h404, h429, hlt] at hres
              subst hres
              intro hx
              exact Origin.noConfusion hx
          · cases htx : r.textNonempty with
            | true =>
              cases hbody : r.body with
              | none =>
                by_cases hlt : attempt + 1 < mr
                · simp [checkFrom, hsa, h200, h404, h429, htx, hbody, hlt] at hres
                  obtain ⟨res', hres', horig⟩ := addSleep_ok _ _ _ hres
                  rw [horig]
                  exact ih (attempt + 1) (by omega) (by omega) res' hres'
                · simp [checkFrom, hsa, h200, h404, h429, htx, hbody, hlt] at hres
                  subst hres
                  intro hx
                  exact Origin.noConfusion hx
              | some j =>
                cases j with
                | obj o =>
                  simp [checkFrom, hsa, h200, h404, h429, htx, hbody] at hres
                  subst hres
                  intro hx
                  exact Origin.noConfusion hx
                | objX d =>
                  simp [checkFrom, hsa, h200, h404, h429, htx, hbody] at hres
                  subst hres
                  intro hx
                  exact Origin.noConfusion hx
                | nonObj =>
                  simp [checkFrom, hsa, h200, h404, h429, htx, hbody] at hres
            | false =>
              simp [checkFrom, hsa, h200, h404, h429, htx] at hres
              subst hres
              intro hx
              exact Origin.noConfusion hx

/-- C10: for every max_retries >= 1 and every transport script, any
outcome `check_promo_code` returns comes from a return statement inside
the retry loop, never from the trailing fallback; the fallback outcome
(status ERROR, message "Max retries exceeded") is returned exactly when
max_retries = 0, in which case the loop body never runs. -/
theorem spec_C10_fallback_dead (code : String) (debug : Bool) (mr : Nat)
    (script : Nat → Attempt) :
    (1 ≤ mr → ∀ res, check_promo_code code debug mr script = .ok res →
        res.origin ≠ .fallback) ∧
    (mr = 0 → check_promo_code code debug mr script =
        .ok ⟨0, [], .fallback, maxRetriesOutcome code⟩) := by
  constructor
  · intro hm res hres
    exact no_fallback code debug mr script mr 0 (by omega) hm res hres
  · intro h0
    subst h0
    rfl

/-- Witness for C10: with one retry the fallback is unreachable, with zero
retries it is returned. -/
theorem spec_C10_witness :
    (∀ res, check_promo_code "c" false 1 (fun _ => .response { status := 404 }) =
        .ok res → res.origin ≠ .fallback) ∧
    check_promo_code "c" false 0 (fun _ => .response { status := 404 }) =
      .ok ⟨0, [], .fallback, maxRetriesOutcome "c"⟩ :=
  ⟨(spec_C10_fallback_dead "c" false 1 (fun _ => .response { status := 404 })).1
      (by norm_num),
   (spec_C10_fallback_dead "c" false 0 (fun _ => .response { status := 404 })).2 rfl⟩

theorem netSleeps_eq_map : ∀ (k a : Nat),
    netSleeps a k = (List.range k).map (fun j => min (2 * 2 ^ (a + j)) 10) := by
  intro k
  induction k with
  | zero => intro a; rfl
  | succ n ih =>
    intro a
    rw [show netSleeps a (n + 1) = min (2 * 2 ^ a) 10 :: netSleeps (a + 1) n from rfl,
        ih (a + 1), List.range_succ_eq_map, List.map_cons, List.map_map]
    refine congrArg₂ List.cons (by simp) ?_
    refine List.map_congr_left ?_
    intro j _
    simp only [Function.comp_apply, Nat.succ_eq_add_one]
    rw [show a + (j + 1) = a + 1 + j from by omega]

theorem allFail_run (code : String) (debug : Bool) (mr : Nat) (script : Nat → Attempt)
    (msgs : Nat → String) (hs : ∀ i, script i = .failure (msgs i)) :
    ∀ fuel attempt, attempt + fuel = mr → 1 ≤ fuel →
      checkFrom code debug mr script attempt fuel =
        .ok ⟨mr, netSleeps attempt (fuel - 1), .netError,
             netErrorOutcome code (msgs (mr - 1))⟩ := by
  intro fuel
  induction fuel with
  | zero => intro attempt _ h; omega
  | succ f ih =>
    intro attempt hsum _
    cases f with
    | zero =>
      have hlt : ¬ (attempt + 1 < mr) := by omega
      have hmr : mr - 1 = attempt := by omega
      have hmr2 : mr = attempt + 1 := by omega
      conv_lhs => rw [checkFrom]
      rw [hs attempt]
      simp [hlt, netSleeps, hmr, hmr2]
    | succ g =>
      have hlt : attempt + 1 < mr := by omega
      have hrec := ih (attempt + 1) (by omega) (by omega)
      conv_lhs => rw [checkFrom]
      rw [hs attempt]
      simp [hlt, hrec, addSleep, netSleeps]

/-- C3: for every code, when every attempt fails with a transport-level
error, `check_promo_code` sleeps min(2 * 2^attemptIndex, 10) seconds
before each retry, and after exhausting max_retries attempts returns an
outcome whose status is ERROR and whose message carries the description of
the last failure. -/
theorem spec_C3_transport_failure (code : String) (debug : Bool) (mr : Nat)
    (script : Nat → Attempt) (msgs : Nat → String) (hm : 1 ≤ mr)
    (hs : ∀ i, script i = .failure (msgs i)) :
    check_promo_code code debug mr script =
      .ok ⟨mr, (List.range (mr - 1)).map (fun i => min (2 * 2 ^ i) 10),
           .netError, netErrorOutcome code (msgs (mr - 1))⟩ := by
  have h := allFail_run code debug mr script msgs hs mr 0 (by omega) hm
  show checkFrom code debug mr script 0 mr = _
  rw [h, netSleeps_eq_map]
  simp

/-- Witness for C3: two consecutive connection failures with
max_retries = 2 sleep 2 seconds once and end in a network-error outcome. -/
theorem spec_C3_witness :
    check_promo_code "c" false 2 (fun _ => .failure "timed out") =
      .ok ⟨2, [2], .netError, netErrorOutcome "c" "timed out"⟩ := by
  have h := spec_C3_transport_failure "c" false 2 (fun _ => .failure "timed out")
      (fun _ => "timed out") (by norm_num) (fun _ => rfl)
  simpa [min_def] using h

theorem parseRetryAfter_map (ra : Option Int) :
    parseRetryAfter (ra.map RetryAfterVal.intVal) = .ok (ra.getD 3) := by
  cases ra <;> rfl

/-- C1: for every code, with max_retries = 3 and a transport yielding a
429 response on every attempt (with Retry-After absent or a nonnegative
integer), `check_promo_code` makes exactly 3 requests, sleeps
min(retryAfter * 2^attemptIndex, 30) seconds before each retry where
retryAfter is the integer Retry-After value or 3 when absent, and returns
an outcome whose status is RATE_LIMITED. -/
theorem spec_C1_rate_limited (code : String) (debug : Bool) (script : Nat → Attempt)
    (r0 r1 r2 : HttpResponse) (ra0 ra1 : Option Int)
    (hs0 : script 0 = .response r0) (hs1 : script 1 = .response r1)
    (hs2 : script 2 = .response r2)
    (h0 : r0.status = 429) (h1 : r1.status = 429) (h2 : r2.status = 429)
    (hra0 : r0.retryAfter = ra0.map RetryAfterVal.intVal)
    (hra1 : r1.retryAfter = ra1.map RetryAfterVal.intVal)
    (hn0 : 0 ≤ ra0.getD 3) (hn1 : 0 ≤ ra1.getD 3) :
    check_promo_code code debug 3 script =
      .ok ⟨3, [min (ra0.getD 3 * 2 ^ (0 : Nat)) 30, min (ra1.getD 3 * 2 ^ (1 : Nat)) 30],
           .rateLimited, rateLimitedOutcome code⟩ := by
  have hw0 : ¬ (min (ra0.getD 3) 30 < 0) :=
    not_lt.mpr (le_min hn0 (by norm_num))
  have hw1 : ¬ (min (ra1.getD 3 * 2) 30 < 0) :=
    not_lt.mpr (le_min (by positivity) (by norm_num))
  show checkFrom code debug 3 script 0 3 = _
  conv_lhs => rw [checkFrom]
  simp only [hs0]
  conv_lhs => rw [checkFrom]
  simp only [hs1]
  conv_lhs => rw [checkFrom]
  simp only [hs2]
  simp [h0, h1, h2, hra0, hra1, parseRetryAfter_map, hw0, hw1, addSleep]

/-- Witness for C1: three 429 responses with no Retry-After header give 3
requests, sleeps of 3 and 6 seconds, and a RATE_LIMITED outcome. -/
theorem spec_C1_witness :
    check_promo_code "c" false 3 (fun _ => .response { status := 429 }) =
      .ok ⟨3, [3, 6], .rateLimited, rateLimitedOutcome "c"⟩ := by
  have h := spec_C1_rate_limited "c" false (fun _ => .response { status := 429 })
      { status := 429 } { status := 429 } { status := 429 } none none
      rfl rfl rfl rfl rfl rfl rfl rfl (by norm_num) (by norm_num)
  simpa [min_def] using h

/-- Counterexample to C7 as stated: an entered delay of -1 parses as a
number, so the claim requires min(max(-1, 0), 60) = 0 to be used, but the
source falls back to the default 2.5 seconds for negative values. -/
theorem spec_C7_counterexample :
    parse_delay_input (some (-1)) = 2.5 ∧
    min (max ((-1 : ℚ)) 0) 60 = 0 ∧ (2.5 : ℚ) ≠ 0 := by
  refine ⟨by norm_num [parse_delay_input], ?_, by norm_num⟩
  rw [max_def, min_def]
  norm_num

/-- C7 (amended): in batch mode the delay entered is parsed as follows —
invalid (empty or non-numeric) input and negative values fall back to the
default of 2.5 seconds, and numeric values are capped above at 60 seconds:
for every parsed value v the delay is 2.5 when v < 0 and min(v, 60)
otherwise. -/
theorem spec_C7_delay_parse (v : Option ℚ) :
    parse_delay_input v =
      match v with
      | none => 2.5
      | some d => if d < 0 then 2.5 else min d 60 := by
  cases v with
  | none => rfl
  | some d =>
    show (if d < 0 then (2.5 : ℚ) else if d > 60 then (60 : ℚ) else d) =
      (if d < 0 then (2.5 : ℚ) else min d 60)
    by_cases h : d < 0
    · rw [if_pos h, if_pos h]
    · rw [if_neg h, if_neg h]
      by_cases h60 : d > 60
      · rw [if_pos h60, min_def, if_neg (not_le.mpr h60)]
      · rw [if_neg h60, min_def, if_pos (not_lt.mp h60)]

theorem lineToCode_none_of_skip (l : String)
    (h : pyStrip l = "" ∨ pyStartsWithHash (pyStrip l) = true) :
    lineToCode l = none := by
  show (if pyStrip l = "" ∨ pyStartsWithHash (pyStrip l) = true then none
        else extract_gift_code (pyStrip l)) = none
  rw [if_pos h]

theorem lineToCode_none_of_noextract (l : String)
    (h : extract_gift_code (pyStrip l) = none) : lineToCode l = none := by
  show (if pyStrip l = "" ∨ pyStartsWithHash (pyStrip l) = true then none
        else extract_gift_code (pyStrip l)) = none
  split
  · rfl
  · exact h

theorem codes_skip (pre post : List String) (l : String) (h : lineToCode l = none) :
    codes_to_check (pre ++ l :: post) = codes_to_check (pre ++ post) := by
  unfold codes_to_check
  rw [List.filterMap_append, List.filterMap_append, List.filterMap_cons_none h]

theorem catsSize_classify (acc : BatchCats) (res : LookupOutcome) :
    catsSize (classifyResult acc res) = catsSize acc + 1 := by
  unfold classifyResult
  split_ifs <;>
    (simp only [catsSize, List.length_append, List.length_cons, List.length_nil]; omega)

theorem bulk_foldl (fn : String → LookupOutcome) :
    ∀ (codes : List String) (st : List String × BatchCats),
      (codes.foldl (bulkStep fn) st).1 = st.1 ++ codes ∧
      catsSize (codes.foldl (bulkStep fn) st).2 = catsSize st.2 + codes.length := by
  intro codes
  induction codes with
  | nil => intro st; simp
  | cons c cs ih =>
    intro st
    rw [List.foldl_cons]
    obtain ⟨ha, hb⟩ := ih (bulkStep fn st c)
    constructor
    · rw [ha]
      simp [bulkStep]
    · rw [hb]
      show catsSize (classifyResult st.2 (fn c)) + cs.length = _
      rw [catsSize_classify]
      simp [List.length_cons]
      omega

/-- C9: in a batch run, input lines that are blank or start with a
comment marker are skipped before extraction and lines from which no code
can be extracted are dropped without being counted in any category; when
no codes remain after filtering, no lookup is made and no output file is
written; otherwise exactly one lookup occurs per extracted code, in input
order, the output file is written, and the total number of category
entries equals the number of codes. -/
theorem spec_C9_batch_filtering :
    (∀ (pre post : List String) (l : String),
        pyStrip l = "" ∨ pyStartsWithHash (pyStrip l) = true →
        codes_to_check (pre ++ l :: post) = codes_to_check (pre ++ post)) ∧
    (∀ (pre post : List String) (l : String),
        extract_gift_code (pyStrip l) = none →
        codes_to_check (pre ++ l :: post) = codes_to_check (pre ++ post)) ∧
    (∀ (lines : List String) (fn : String → LookupOutcome),
        codes_to_check lines = [] →
        bulk_check_lines lines fn = ⟨[], {}, false⟩) ∧
    (∀ (lines : List String) (fn : String → LookupOutcome),
        codes_to_check lines ≠ [] →
        (bulk_check_lines lines fn).calls = codes_to_check lines ∧
        (bulk_check_lines lines fn).wrote_file = true ∧
        catsSize (bulk_check_lines lines fn).cats = (codes_to_check lines).length) := by
  refine ⟨?_, ?_, ?_, ?_⟩
  · intro pre post l h
    exact codes_skip pre post l (lineToCode_none_of_skip l h)
  · intro pre post l h
    exact codes_skip pre post l (lineToCode_none_of_noextract l h)
  · intro lines fn h
    simp [bulk_check_lines, h]
  · intro lines fn h
    have hne : (codes_to_check lines).isEmpty = false := by
      cases hcc : codes_to_check lines with
      | nil => exact absurd hcc h
      | cons a l => rfl
    obtain ⟨h1, h2⟩ := bulk_foldl fn (codes_to_check lines) ([], {})
    refine ⟨?_, ?_, ?_⟩
    · simp [bulk_check_lines, hne, h1]
    · simp [bulk_check_lines, hne]
    · simp only [bulk_check_lines, hne, Bool.false_eq_true, if_false]
      rw [h2]
      simp [catsSize]

/-- Witness for C9: a comment line and a non-extractable line are dropped,
an all-comment file performs no lookup and writes nothing, and a
single-code file is looked up once. -/
theorem spec_C9_witness :
    codes_to_check ["# note", "", "ABCDEFGHIJKLMNOP"] =
      codes_to_check ["", "ABCDEFGHIJKLMNOP"] ∧
    codes_to_check ["!!", "ABCDEFGHIJKLMNOP"] = codes_to_check ["ABCDEFGHIJKLMNOP"] ∧
    bulk_check_lines ["# only a comment"] (fun c => invalidOutcome c) = ⟨[], {}, false⟩ ∧
    (bulk_check_lines ["ABCDEFGHIJKLMNOP"] (fun c => invalidOutcome c)).calls =
      codes_to_check ["ABCDEFGHIJKLMNOP"] := by
  refine ⟨?_, ?_, ?_, ?_⟩
  · exact spec_C9_batch_filtering.1 [] ["", "ABCDEFGHIJKLMNOP"] "# note"
      (Or.inr (by decide))
  · exact spec_C9_batch_filtering.2.1 [] ["ABCDEFGHIJKLMNOP"] "!!" (by decide)
  · exact spec_C9_batch_filtering.2.2.1 ["# only a comment"] _ (by decide)
  · exact (spec_C9_batch_filtering.2.2.2 ["ABCDEFGHIJKLMNOP"] _ (by decide)).1
